import Mathlib

set_option maxRecDepth 4000

/-!
Shallow embedding of the banshare repository core: the SQLite-backed data
model (collections, servers, bans, moderators, invites, audit logs), the
evidence validator, and the command flows for sharing, revoking and
inviting. Identifiers (UUIDs, Discord snowflakes) are modelled as natural
numbers, ISO-8601 timestamp strings as natural numbers (the fixed ISO
format is order-isomorphic to time), SQLite boolean columns as Bool, JSON
columns as their parsed values, and each table as a list of rows. Remote
platform calls (guild fetch + ban/unban, channel sends) and the
environment (generated UUIDs, the clock, db-driver failures) are passed in
as function or value parameters.
-/

/-- Evidence type tag (src/database/models/ban.ts, EvidenceType). -/
inductive EvidenceType
  | image
  | link
  | text
deriving DecidableEq, Repr

/-- Evidence storage kind (ban.ts, EvidenceStorage: s3, gridfs, external). -/
inductive EvidenceStorage
  | s3
  | gridfs
  | externalRef
deriving DecidableEq, Repr

/-- Evidence entry attached to a ban (ban.ts, EvidenceEntry). -/
structure EvidenceEntry where
  id : Nat
  type : EvidenceType
  storage : EvidenceStorage
  ref : String
  notes : Option String
  sizeBytes : Nat
deriving DecidableEq, Repr

/-- Per-target propagation outcome (ban.ts, AppliedServerResult). -/
inductive AppliedServerResult
  | success
  | failed
  | skipped
  | no_perm
  | already_banned
deriving DecidableEq, Repr

/-- One propagation run entry (ban.ts, AppliedServerRunEntry). -/
structure AppliedServerRunEntry where
  guildId : Nat
  runId : Nat
  appliedAt : Option Nat
  result : AppliedServerResult
  error : Option String
  retryCount : Nat
deriving DecidableEq, Repr

/-- Ban meta blob (ban.ts, BanMeta). -/
structure BanMeta where
  lastRunId : Option Nat := none
  runs : Option Nat := none
deriving DecidableEq, Repr

/-- A row of the bans table (ban.ts, BanRow with JSON columns parsed). -/
structure BanRow where
  _id : Nat
  collectionId : Nat
  userId : Nat
  moderatorId : Nat
  moderatorGuildId : Nat
  timestamp : Nat
  expiresAt : Option Nat
  reason : Option String
  userFacingReason : Option String
  privatiseReason : Bool
  moderatorsInvolved : List Nat
  evidence : List EvidenceEntry
  active : Bool
  appliedServersRecent : List AppliedServerRunEntry
  appliedServersHistory : List AppliedServerRunEntry
  meta : BanMeta
deriving DecidableEq, Repr

/-- A row of the collections table (collection.ts, CollectionRow). -/
structure CollectionRow where
  _id : Nat
  mainGuildId : Nat
  name : String
  description : Option String
  createdAt : Nat
  createdBy : Nat
  loggingEnabledAtCollectionLevel : Bool
  onServerRemove : Nat
  dmOnBan : Bool
  analyticsEnabled : Bool
  maxLinkedServers : Nat
deriving DecidableEq, Repr

/-- A row of the servers table, i.e. a group-membership record
(server.ts, ServerRow). -/
structure ServerRow where
  _id : Nat
  guildId : Nat
  collectionId : Nat
  addedAt : Nat
  addedBy : Nat
  loggingChannelId : Option Nat
  syncOnJoin : Bool
  enabled : Bool
deriving DecidableEq, Repr

/-- Moderator grant kind (moderator.ts, ModeratorType). -/
inductive ModeratorType
  | user
  | role
deriving DecidableEq, Repr

/-- A row of the moderators table (moderator.ts, ModeratorRow). -/
structure ModeratorRow where
  _id : Nat
  collectionId : Nat
  type : ModeratorType
  value : Nat
  grantedBy : Nat
  grantedAt : Nat
deriving DecidableEq, Repr

/-- Invite lifecycle status (invite model, InviteStatus). -/
inductive InviteStatus
  | pending
  | accepted
  | expired
  | cancelled
deriving DecidableEq, Repr

/-- A row of the invites table (invite model, InviteRow). -/
structure InviteRow where
  _id : Nat
  collectionId : Nat
  targetGuildId : Nat
  invitedBy : Nat
  invitedAt : Nat
  expiresAt : Nat
  status : InviteStatus
  respondedAt : Option Nat
deriving DecidableEq, Repr

/-- Audit action vocabulary (auditLog.ts, AuditLogAction). -/
inductive AuditLogAction
  | collection_create
  | collection_create_failed
  | server_add
  | server_add_failed
  | server_remove
  | server_remove_failed
  | moderator_add
  | moderator_add_failed
  | ban_create
  | ban_create_failed
  | ban_revoke
  | ban_revoke_failed
  | ban_sync
  | ban_sync_failed
  | ban_edit
  | ban_edit_failed
  | ban_lookup
  | ban_view
  | setting_update
  | setting_update_failed
  | invite_create
  | invite_create_failed
  | invite_accept
  | invite_accept_failed
  | collection_delete
  | collection_delete_failed
  | evidence_access
deriving DecidableEq, Repr

/-- Structured audit detail payload: the union of the fields the command
layer passes as the free-form details object of logAction calls. -/
structure AuditDetails where
  banId : Option Nat := none
  userId : Option Nat := none
  guildId : Option Nat := none
  serverId : Option Nat := none
  inviteId : Option Nat := none
  targetGuildId : Option Nat := none
  expiresAt : Option Nat := none
  name : Option String := none
  mainGuildId : Option Nat := none
  reason : Option String := none
  privatiseReason : Option Bool := none
  syncOnJoin : Option Bool := none
  serverIds : Option (List Nat) := none
  serverCount : Option Nat := none
  moderatorCount : Option Nat := none
  evidenceCount : Option Nat := none
  errors : Option (List (Nat × String)) := none
deriving DecidableEq, Repr

/-- A row of the auditLogs table (auditLog.ts, AuditLogRow with the
details JSON parsed). -/
structure AuditLogRow where
  _id : Nat
  collectionId : Nat
  action : AuditLogAction
  performedBy : Nat
  performedAt : Nat
  details : AuditDetails
deriving DecidableEq, Repr

/-- The whole SQLite database: one list of rows per table. -/
structure DbState where
  collections : List CollectionRow := []
  servers : List ServerRow := []
  bans : List BanRow := []
  moderators : List ModeratorRow := []
  invites : List InviteRow := []
  auditLogs : List AuditLogRow := []
deriving DecidableEq, Repr

/-- Errors raised by the embedded operations: RecordNotFoundError,
the evidence length validation in Ban.create, SQLite foreign-key and
unique-index violations, and the user-visible command rejections. -/
inductive Err
  | recordNotFound
  | evidenceMaxFive
  | foreignKeyViolation
  | uniqueConstraintViolation
  | persistFailure
  | noEnabledServers
  | duplicateBan
  | invalidServerId
  | cannotInviteSelf
  | duplicatePendingInvite
  | targetGuildNotFound
  | inviteNoLongerValid
  | alreadyInCollection
  | collectionMissing
  | capacityReached
deriving DecidableEq, Repr

/-! ### Sorting helper shared by the SELECT ... ORDER BY <column> DESC queries -/

/-- Insert one element into a list sorted by a Nat key in descending
order, keeping the order. -/
def orderedInsertDescBy {α : Type} (key : α → Nat) (x : α) : List α → List α
  | [] => [x]
  | y :: ys => if key y ≤ key x then x :: y :: ys else y :: orderedInsertDescBy key x ys

/-- Sort a list by a Nat key in descending order (insertion sort), the
model of the SQL ORDER BY <column> DESC clause. -/
def sortByKeyDesc {α : Type} (key : α → Nat) : List α → List α
  | [] => []
  | x :: xs => orderedInsertDescBy key x (sortByKeyDesc key xs)

theorem mem_orderedInsertDescBy {α : Type} (key : α → Nat) (x a : α) (l : List α) :
    a ∈ orderedInsertDescBy key x l ↔ a = x ∨ a ∈ l := by
  induction l with
  | nil => simp [orderedInsertDescBy]
  | cons y ys ih =>
    by_cases h : key y ≤ key x
    · simp [orderedInsertDescBy, h]
    · simp [orderedInsertDescBy, h, ih]
      tauto

theorem mem_sortByKeyDesc {α : Type} (key : α → Nat) (a : α) (l : List α) :
    a ∈ sortByKeyDesc key l ↔ a ∈ l := by
  induction l with
  | nil => simp [sortByKeyDesc]
  | cons x xs ih => simp [sortByKeyDesc, mem_orderedInsertDescBy, ih]

theorem length_orderedInsertDescBy {α : Type} (key : α → Nat) (x : α) (l : List α) :
    (orderedInsertDescBy key x l).length = l.length + 1 := by
  induction l with
  | nil => simp [orderedInsertDescBy]
  | cons y ys ih =>
    by_cases h : key y ≤ key x
    · simp [orderedInsertDescBy, h]
    · simp [orderedInsertDescBy, h, ih]

theorem length_sortByKeyDesc {α : Type} (key : α → Nat) (l : List α) :
    (sortByKeyDesc key l).length = l.length := by
  induction l with
  | nil => simp [sortByKeyDesc]
  | cons x xs ih => simp [sortByKeyDesc, length_orderedInsertDescBy, ih]

/-! ### Evidence validator (shareban.ts lines 50-159) -/

/-- ALLOWED_MAGIC_BYTES (shareban.ts lines 50-72): per accepted file type,
the list of magic-byte signatures. Order: png, jpg, gif, webp, bmp, pdf,
mp4, webm, txt. -/
def ALLOWED_MAGIC_BYTES : List (List (List Nat)) :=
  [ [[0x89, 0x50, 0x4e, 0x47]],
    [[0xff, 0xd8, 0xff, 0xe0],
     [0xff, 0xd8, 0xff, 0xe1],
     [0xff, 0xd8, 0xff, 0xe2],
     [0xff, 0xd8, 0xff, 0xdb]],
    [[0x47, 0x49, 0x46, 0x38, 0x37, 0x61],
     [0x47, 0x49, 0x46, 0x38, 0x39, 0x61]],
    [[0x52, 0x49, 0x46, 0x46]],
    [[0x42, 0x4d]],
    [[0x25, 0x50, 0x44, 0x46]],
    [[0x00, 0x00, 0x00, 0x18, 0x66, 0x74, 0x79, 0x70]],
    [[0x1a, 0x45, 0xdf, 0xa3]],
    [[0xef, 0xbb, 0xbf]] ]

/-- BLOCKED_MAGIC_BYTES (shareban.ts lines 75-81): Windows PE, ELF,
Mach-O 32-bit, Mach-O 64-bit, ZIP. -/
def BLOCKED_MAGIC_BYTES : List (List Nat) :=
  [ [0x4d, 0x5a],
    [0x7f, 0x45, 0x4c, 0x46],
    [0xca, 0xfe, 0xba, 0xbe],
    [0xcf, 0xfa, 0xed, 0xfe],
    [0x50, 0x4b, 0x03, 0x04] ]

/-- checkMagicBytes (shareban.ts lines 132-137): true when some signature
in the list is a byte-for-byte match of the start of the buffer. -/
def checkMagicBytes (buffer : List Nat) (signatures : List (List Nat)) : Bool :=
  signatures.any fun sig =>
    if buffer.length < sig.length then false
    else (sig.zip (buffer.take sig.length)).all fun p => p.2 == p.1

/-- isBlockedFile (shareban.ts lines 139-141). -/
def isBlockedFile (buffer : List Nat) : Bool :=
  BLOCKED_MAGIC_BYTES.any fun sig => checkMagicBytes buffer [sig]

/-- isAllowedFile (shareban.ts lines 143-159): blocked first, then the
allowlist, then the printable-ASCII plain-text fallback over the first
100 bytes. -/
def isAllowedFile (buffer : List Nat) : Bool :=
  if isBlockedFile buffer then false
  else if ALLOWED_MAGIC_BYTES.any fun signatures => checkMagicBytes buffer signatures then true
  else
    (buffer.take 100).all fun byte =>
      (decide (0x20 ≤ byte) && decide (byte ≤ 0x7e)) || byte == 0x0a || byte == 0x0d || byte == 0x09

/-- C5: for every evidence byte buffer whose first bytes match one of the
blocklisted executable or archive signatures, validation rejects the
buffer, no matter whether it also matches an allowlisted signature or the
printable plain-text fallback: the blocklist check runs first and wins. -/
theorem blocked_buffer_always_rejected (buffer : List Nat)
    (h : isBlockedFile buffer = true) : isAllowedFile buffer = false := by
  simp [isAllowedFile, h]

/-- Witness for C5: the two-byte Windows PE signature MZ, which is also
all printable ASCII (so the plain-text fallback would have accepted it),
is blocked and rejected. -/
theorem blocked_buffer_always_rejected_witness :
    isBlockedFile [0x4d, 0x5a, 0x68, 0x65, 0x6c, 0x6c, 0x6f] = true ∧
      ([0x4d, 0x5a, 0x68, 0x65, 0x6c, 0x6c, 0x6f].all fun byte =>
        (decide (0x20 ≤ byte) && decide (byte ≤ 0x7e))) = true ∧
      isAllowedFile [0x4d, 0x5a, 0x68, 0x65, 0x6c, 0x6c, 0x6f] = false :=
  ⟨by decide, by decide, blocked_buffer_always_rejected _ (by decide)⟩

/-! ### Database model operations -/

/-- BanCreateInput (ban.ts lines 32-47). -/
structure BanCreateInput where
  collectionId : Nat
  userId : Nat
  moderatorId : Nat
  moderatorGuildId : Nat
  expiresAt : Option Nat := none
  reason : Option String := none
  userFacingReason : Option String := none
  privatiseReason : Option Bool := none
  moderatorsInvolved : Option (List Nat) := none
  evidence : Option (List EvidenceEntry) := none
  active : Option Bool := none
  appliedServersRecent : Option (List AppliedServerRunEntry) := none
  appliedServersHistory : Option (List AppliedServerRunEntry) := none
  meta : Option BanMeta := none

namespace Ban

/-- Ban.create (ban.ts lines 225-274): validate the evidence bound, then
INSERT a row built from the input with the documented defaults. The fresh
UUID and the clock value come from the environment as parameters. -/
def create (db : DbState) (newId timestamp : Nat) (input : BanCreateInput) :
    Except Err (BanRow × DbState) :=
  let evidence := input.evidence.getD []
  if evidence.length > 5 then .error .evidenceMaxFive
  else
    let row : BanRow :=
      { _id := newId
        collectionId := input.collectionId
        userId := input.userId
        moderatorId := input.moderatorId
        moderatorGuildId := input.moderatorGuildId
        timestamp := timestamp
        expiresAt := input.expiresAt
        reason := input.reason
        userFacingReason := (input.userFacingReason).orElse fun _ => input.reason
        privatiseReason := input.privatiseReason.getD true
        moderatorsInvolved := input.moderatorsInvolved.getD []
        evidence := evidence
        active := input.active.getD true
        appliedServersRecent := input.appliedServersRecent.getD []
        appliedServersHistory := input.appliedServersHistory.getD []
        meta := input.meta.getD { runs := some 1 } }
    .ok (row, { db with bans := db.bans ++ [row] })

/-- Ban.listByCollection (ban.ts lines 280-294): the rows of one
collection, optionally only the active ones, newest first, LIMIT 1000. -/
def listByCollection (db : DbState) (collectionId : Nat) (onlyActive : Bool) : List BanRow :=
  let rows := db.bans.filter fun b => b.collectionId == collectionId && (!onlyActive || b.active)
  (sortByKeyDesc (fun b => b.timestamp) rows).take 1000

/-- Ban.findByUserId (ban.ts lines 296-308): the rows of one user,
optionally only the active ones, newest first, LIMIT 500. -/
def findByUserId (db : DbState) (userId : Nat) (onlyActive : Bool) : List BanRow :=
  let rows := db.bans.filter fun b => b.userId == userId && (!onlyActive || b.active)
  (sortByKeyDesc (fun b => b.timestamp) rows).take 500

/-- Ban.save (ban.ts lines 330-371): UPDATE every column except _id and
timestamp on the row with the object id; RecordNotFoundError when no row
changed. -/
def save (db : DbState) (b : BanRow) : Except Err DbState :=
  if db.bans.any fun r => r._id == b._id then
    .ok { db with
          bans := db.bans.map fun r =>
            if r._id == b._id then { b with _id := r._id, timestamp := r.timestamp } else r }
  else .error .recordNotFound

/-- Ban.revoke (ban.ts lines 373-377): flip active to false and save; the
row is updated in place, never deleted. -/
def revoke (db : DbState) (b : BanRow) : Except Err DbState :=
  save db { b with active := false }

end Ban

namespace Server

/-- Server.listByCollection (server.ts lines 140-144): every row of the
collection, enabled or not, newest first, no limit. -/
def listByCollection (db : DbState) (collectionId : Nat) : List ServerRow :=
  sortByKeyDesc (fun s => s.addedAt) (db.servers.filter fun s => s.collectionId == collectionId)

/-- Server.getByGuildId (server.ts lines 155-160): the enabled row of a
guild, none when RecordNotFoundError would be raised. -/
def getByGuildId (db : DbState) (guildId : Nat) : Option ServerRow :=
  db.servers.find? fun s => s.guildId == guildId && s.enabled

/-- Server.add (server.ts lines 105-134): INSERT a membership row with the
documented defaults; the unique (collectionId, guildId) index of the
schema rejects a duplicate pair. -/
def add (db : DbState) (newId addedAt : Nat) (guildId collectionId addedBy : Nat)
    (loggingChannelId : Option Nat) (syncOnJoin enabled : Bool) :
    Except Err (ServerRow × DbState) :=
  if db.servers.any fun s => s.collectionId == collectionId && s.guildId == guildId then
    .error .uniqueConstraintViolation
  else
    let row : ServerRow :=
      { _id := newId, guildId := guildId, collectionId := collectionId, addedAt := addedAt
        addedBy := addedBy, loggingChannelId := loggingChannelId
        syncOnJoin := syncOnJoin, enabled := enabled }
    .ok (row, { db with servers := db.servers ++ [row] })

end Server

/-- InviteCreateInput (invite model lines 6-10). -/
structure InviteCreateInput where
  collectionId : Nat
  targetGuildId : Nat
  invitedBy : Nat

namespace Invite

/-- The 48-hour invite expiry horizon in milliseconds (invite model
line 100). -/
def expiryHorizonMs : Nat := 48 * 60 * 60 * 1000

/-- Invite.create (invite model lines 95-118): INSERT a pending row whose
expiresAt is 48 hours after now. -/
def create (db : DbState) (newId now : Nat) (input : InviteCreateInput) : InviteRow × DbState :=
  let row : InviteRow :=
    { _id := newId, collectionId := input.collectionId, targetGuildId := input.targetGuildId
      invitedBy := input.invitedBy, invitedAt := now, expiresAt := now + expiryHorizonMs
      status := .pending, respondedAt := none }
  (row, { db with invites := db.invites ++ [row] })

/-- Invite.hasPendingInvite (invite model lines 163-176): COUNT of the
pending, unexpired rows of the (collection, target guild) pair is
positive. No row limit. -/
def hasPendingInvite (db : DbState) (collectionId targetGuildId now : Nat) : Bool :=
  0 < (db.invites.filter fun i =>
    i.collectionId == collectionId && i.targetGuildId == targetGuildId &&
      i.status == InviteStatus.pending && decide (now < i.expiresAt)).length

/-- Invite.isExpired (invite model lines 178-180). -/
def isExpired (i : InviteRow) (now : Nat) : Bool :=
  decide (i.expiresAt < now)

/-- Invite.accept (invite model lines 204-209): set status accepted and
respondedAt, then UPDATE the row. -/
def accept (db : DbState) (i : InviteRow) (now : Nat) : Except Err DbState :=
  if db.invites.any fun r => r._id == i._id then
    .ok { db with
          invites := db.invites.map fun r =>
            if r._id == i._id then
              { r with status := InviteStatus.accepted, respondedAt := some now }
            else r }
  else .error .recordNotFound

end Invite

/-- AuditLogCreateInput (auditLog.ts lines 35-40). -/
structure AuditLogCreateInput where
  collectionId : Nat
  action : AuditLogAction
  performedBy : Nat
  details : AuditDetails := {}

namespace AuditLog

/-- AuditLog.create (auditLog.ts lines 114-131): INSERT one audit row.
Whether the underlying db driver raises on the INSERT is an environment
fact, passed as the persistFails flag. -/
def create (db : DbState) (newId now : Nat) (input : AuditLogCreateInput)
    (persistFails : Bool) : Except Err (AuditLogRow × DbState) :=
  if persistFails then .error .persistFailure
  else
    let row : AuditLogRow :=
      { _id := newId, collectionId := input.collectionId, action := input.action
        performedBy := input.performedBy, performedAt := now, details := input.details }
    .ok (row, { db with auditLogs := db.auditLogs ++ [row] })

end AuditLog

/-- logAction (lib/utils lines 245-265): try AuditLog.create; on a raised
persistence error, swallow it and return null instead of re-throwing, so
the caller continues unaffected. The fire-and-forget notification fan-out
does not touch the database. -/
def logAction (db : DbState) (newId now : Nat) (input : AuditLogCreateInput)
    (persistFails : Bool) : Option AuditLogRow × DbState :=
  match AuditLog.create db newId now input persistFails with
  | .ok (row, db2) => (some row, db2)
  | .error _ => (none, db)

namespace Collection

/-- Collection.remove (collection.ts lines 243-257): one transaction that
deletes the audit logs, moderators, bans and servers of the collection and
then the collection row itself. The invites table is not touched; because
the schema declares invites.collectionId as a foreign key into collections
and the connection runs with foreign_keys = ON, the final DELETE raises a
foreign-key violation whenever any invite row still references the
collection, and the whole transaction rolls back. The second component of
the result is the database after the call: unchanged on any error. -/
def remove (db : DbState) (collectionId : Nat) : Except Err Unit × DbState :=
  if db.collections.any fun c => c._id == collectionId then
    if db.invites.any fun i => i.collectionId == collectionId then
      (.error .foreignKeyViolation, db)
    else
      (.ok (),
        { db with
          auditLogs := db.auditLogs.filter fun a => !(a.collectionId == collectionId)
          moderators := db.moderators.filter fun m => !(m.collectionId == collectionId)
          bans := db.bans.filter fun b => !(b.collectionId == collectionId)
          servers := db.servers.filter fun s => !(s.collectionId == collectionId)
          collections := db.collections.filter fun c => !(c._id == collectionId) })
  else (.error .recordNotFound, db)

end Collection

/-! ### shareban command flow (shareban.ts) -/

/-- EvidenceFile (shareban.ts lines 83-89): a validated upload tracked in
the configuration menu. -/
structure EvidenceFile where
  id : Nat
  originalName : String
  storedPath : String
  mimeType : String
  size : Nat
deriving DecidableEq, Repr

/-- BanConfiguration (shareban.ts lines 91-101); the target User object is
represented by its id, and the selected-server Set by its insertion-order
list. -/
structure BanConfiguration where
  targetUserId : Nat
  collectionId : Nat
  selectedServerGuildIds : List Nat
  reason : String
  userFacingReason : String
  privatiseReason : Bool
  moderatorsInvolved : List Nat
  evidence : List EvidenceFile
  dmUser : Bool
deriving DecidableEq, Repr

/-- ServerInfo (shareban.ts lines 104-107). -/
structure ServerInfo where
  guildId : Nat
  isMainServer : Bool
deriving DecidableEq, Repr

/-- buildServerInfoList (shareban.ts lines 110-130): the enabled linked
servers of the collection, with the main guild prepended when it has no
enabled membership row of its own. -/
def buildServerInfoList (db : DbState) (collection : CollectionRow) : List ServerInfo :=
  let linkedServers := (Server.listByCollection db collection._id).filter fun s => s.enabled
  let mainServerInList := linkedServers.any fun s => s.guildId == collection.mainGuildId
  (if mainServerInList then [] else [{ guildId := collection.mainGuildId, isMainServer := true }]) ++
    linkedServers.map fun s =>
      { guildId := s.guildId, isMainServer := s.guildId == collection.mainGuildId }

/-- The duplicate-ban lookup of shareban chatInputRun (shareban.ts lines
308-310): fetch the active bans of the collection (capped at the 1000
newest) and search them for the target user id. Nothing about the
selected or targeted servers enters the search. -/
def sharebanFindExistingBan (db : DbState) (collectionId userId : Nat) : Option BanRow :=
  (Ban.listByCollection db collectionId true).find? fun b => b.userId == userId

/-- shareban chatInputRun from collection resolution to the configuration
menu (shareban.ts lines 298-334): build the enabled-server list, reject
when it is empty, reject with the duplicate-ban error when the target
already appears among the fetched active bans, otherwise assemble the
initial configuration with every server selected. No platform ban call is
made and nothing is persisted at this stage; the database is read only. -/
def sharebanChatInputRun (db : DbState) (collection : CollectionRow)
    (targetUserId : Nat) : Except Err BanConfiguration :=
  let allServers := buildServerInfoList db collection
  if allServers.length == 0 then .error .noEnabledServers
  else
    match sharebanFindExistingBan db collection._id targetUserId with
    | some _ => .error .duplicateBan
    | none =>
      .ok
        { targetUserId := targetUserId
          collectionId := collection._id
          selectedServerGuildIds := allServers.map fun s => s.guildId
          reason := ""
          userFacingReason := ""
          privatiseReason := true
          moderatorsInvolved := []
          evidence := []
          dmUser := true }

/-- One per-server outcome row collected by handleConfirmBan
(shareban.ts line 1546). -/
structure BanAttemptResult where
  guildId : Nat
  success : Bool
  error : Option String
deriving DecidableEq, Repr

/-- The value of handleConfirmBan relevant to persistence: the per-server
results, the created ban row, and the database after the flow. -/
structure ConfirmBanOutcome where
  results : List BanAttemptResult
  ban : BanRow
  db : DbState
deriving DecidableEq, Repr

/-- handleConfirmBan (shareban.ts lines 1532-1715), the persistence part:
attempt the platform ban on every selected server collecting one result
per server (a failure never aborts the loop), then create the Ban row —
the create input carries no appliedServersRecent or appliedServersHistory
lists — and finally write the ban.create audit entry plus, when some
server failed, the ban.sync.failed entry. The platform outcome per guild
is the applyBan parameter (none = banned, some message = failed); fresh
ids, the clock and audit-persistence failures are parameters as well. -/
def handleConfirmBan (db : DbState) (cfg : BanConfiguration)
    (executorId executorGuildId : Nat) (applyBan : Nat → Option String)
    (banId banTimestamp : Nat) (auditId1 auditId2 auditNow : Nat)
    (auditPersistFails : Bool) : Except Err ConfirmBanOutcome :=
  let results := cfg.selectedServerGuildIds.map fun guildId =>
    match applyBan guildId with
    | none => { guildId := guildId, success := true, error := none : BanAttemptResult }
    | some err => { guildId := guildId, success := false, error := some err : BanAttemptResult }
  match Ban.create db banId banTimestamp
      { collectionId := cfg.collectionId
        userId := cfg.targetUserId
        moderatorId := executorId
        moderatorGuildId := executorGuildId
        reason := some cfg.reason
        userFacingReason := if cfg.userFacingReason == "" then none else some cfg.userFacingReason
        privatiseReason := some cfg.privatiseReason
        moderatorsInvolved := some cfg.moderatorsInvolved } with
  | .error e => .error e
  | .ok (banRow, db1) =>
    let successfulServerIds := (results.filter fun r => r.success).map fun r => r.guildId
    let failedServerIds := (results.filter fun r => !r.success).map fun r => r.guildId
    let db2 :=
      (logAction db1 auditId1 auditNow
        { collectionId := cfg.collectionId
          action := .ban_create
          performedBy := executorId
          details :=
            { banId := some banRow._id
              userId := some cfg.targetUserId
              reason := some cfg.reason
              privatiseReason := some cfg.privatiseReason
              serverIds := some successfulServerIds
              moderatorCount := some cfg.moderatorsInvolved.length
              evidenceCount := some cfg.evidence.length
              serverCount := some successfulServerIds.length } }
        auditPersistFails).2
    let db3 :=
      if failedServerIds.isEmpty then db2
      else
        (logAction db2 auditId2 auditNow
          { collectionId := cfg.collectionId
            action := .ban_sync_failed
            performedBy := executorId
            details :=
              { banId := some banRow._id
                userId := some cfg.targetUserId
                serverIds := some failedServerIds
                serverCount := some failedServerIds.length
                errors := some ((results.filter fun r => !r.success).map fun r =>
                  (r.guildId, r.error.getD "Unknown error")) } }
          auditPersistFails).2
    .ok { results := results, ban := banRow, db := db3 }

/-! ### unshareban command flow (unshareban.ts) -/

/-- First-occurrence deduplication, the model of the JS
spread-of-a-Set idiom on line 380 of unshareban.ts. -/
def uniqueInOrder (l : List Nat) : List Nat :=
  l.foldl (fun acc x => if x ∈ acc then acc else acc ++ [x]) []

/-- The guild set one executeUnban iteration targets (unshareban.ts lines
377-380): the owning guild of the collection followed by the guild of
EVERY membership row of the collection — enabled or disabled alike —
deduplicated, keeping first occurrences. The ban itself contributes
nothing to this computation. -/
def unbanTargetGuildIds (db : DbState) (collection : CollectionRow) : List Nat :=
  let servers := Server.listByCollection db collection._id
  uniqueInOrder (collection.mainGuildId :: servers.map fun s => s.guildId)

/-- One per-server outcome row of executeUnban (unshareban.ts line 375). -/
structure UnbanServerResult where
  guildId : Nat
  success : Bool
  error : Option String
deriving DecidableEq, Repr

/-- One iteration of the per-ban loop of executeUnban (unshareban.ts lines
372-432): resolve the collection of the ban, attempt the platform unban on
every target guild collecting one result per guild, set active to false
and UPDATE the row, then write the ban.revoke audit entry plus, when some
guild failed, the ban.revoke.failed entry. The remote removal outcome per
guild is the removeBan parameter. The second component of the result is
the database after the step; it is unchanged on error. -/
def executeUnbanStep (db : DbState) (ban : BanRow) (executorId : Nat)
    (removeBan : Nat → Option String) (auditId1 auditId2 auditNow : Nat)
    (auditPersistFails : Bool) : Except Err (List UnbanServerResult) × DbState :=
  match db.collections.find? fun c => c._id == ban.collectionId with
  | none => (.error .recordNotFound, db)
  | some coll =>
    let serverResults := (unbanTargetGuildIds db coll).map fun g =>
      match removeBan g with
      | none => { guildId := g, success := true, error := none : UnbanServerResult }
      | some e => { guildId := g, success := false, error := some e : UnbanServerResult }
    match Ban.save db { ban with active := false } with
    | .error e => (.error e, db)
    | .ok db1 =>
      let successfulServerIds := (serverResults.filter fun r => r.success).map fun r => r.guildId
      let failedServerIds := (serverResults.filter fun r => !r.success).map fun r => r.guildId
      let db2 :=
        (logAction db1 auditId1 auditNow
          { collectionId := coll._id
            action := .ban_revoke
            performedBy := executorId
            details :=
              { banId := some ban._id
                userId := some ban.userId
                serverIds := some successfulServerIds
                serverCount := some successfulServerIds.length } }
          auditPersistFails).2
      let db3 :=
        if failedServerIds.isEmpty then db2
        else
          (logAction db2 auditId2 auditNow
            { collectionId := coll._id
              action := .ban_revoke_failed
              performedBy := executorId
              details :=
                { banId := some ban._id
                  userId := some ban.userId
                  serverIds := some failedServerIds
                  serverCount := some failedServerIds.length
                  errors := some ((serverResults.filter fun r => !r.success).map fun r =>
                    (r.guildId, r.error.getD "Unknown error")) } }
            auditPersistFails).2
      (.ok serverResults, db3)

/-! ### collection-invite command flow -/

/-- collection-invite chatInputRun from guild-id validation to invite
creation (the CollectionInviteCommand source, lines 71-250): reject a
malformed id, reject a self-invite, reject when a pending unexpired invite
of the (collection, target) pair exists, reject when the target guild
cannot be fetched, otherwise INSERT the invite and write the
invite.create audit entry. Whether the id string matches the snowflake
regex and whether the remote guild fetch succeeds are environment facts
passed as flags. The second component of the result is the database after
the call: unchanged on any rejection. -/
def collectionInviteRun (db : DbState) (collection : CollectionRow)
    (targetGuildId invokingGuildId userId : Nat) (validFormat targetGuildFetched : Bool)
    (now newInviteId auditId : Nat) (auditPersistFails : Bool) :
    Except Err InviteRow × DbState :=
  if !validFormat then (.error .invalidServerId, db)
  else if targetGuildId == invokingGuildId then (.error .cannotInviteSelf, db)
  else if Invite.hasPendingInvite db collection._id targetGuildId now then
    (.error .duplicatePendingInvite, db)
  else if !targetGuildFetched then (.error .targetGuildNotFound, db)
  else
    let (row, db1) := Invite.create db newInviteId now
      { collectionId := collection._id, targetGuildId := targetGuildId, invitedBy := userId }
    let db2 :=
      (logAction db1 auditId now
        { collectionId := collection._id
          action := .invite_create
          performedBy := userId
          details :=
            { inviteId := some row._id
              targetGuildId := some targetGuildId
              expiresAt := some row.expiresAt } }
        auditPersistFails).2
    (.ok row, db2)

/-! ### collection-join acceptInvite flow -/

/-- acceptInvite (the CollectionJoinCommand source, lines 1096-1204):
reload the invite and reject when it is no longer pending or has expired,
reject when the joining guild is already an enabled member of any
collection, reject when the collection is gone, reject with the capacity
error when the TOTAL membership-row count of the collection — enabled and
disabled rows alike, Server.listByCollection applies no enabled filter —
has reached maxLinkedServers, otherwise INSERT the membership row, mark
the invite accepted and write the server.add and invite.accept audit
entries. The second component of the result is the database after the
call: unchanged on any rejection. -/
def acceptInvite (db : DbState) (inviteId joiningGuildId userId : Nat)
    (syncOnJoin : Bool) (now newServerId auditId1 auditId2 : Nat)
    (auditPersistFails : Bool) : Except Err ServerRow × DbState :=
  match db.invites.find? fun i => i._id == inviteId with
  | none => (.error .recordNotFound, db)
  | some invite =>
    if !(invite.status == InviteStatus.pending) || Invite.isExpired invite now then
      (.error .inviteNoLongerValid, db)
    else
      match Server.getByGuildId db joiningGuildId with
      | some _ => (.error .alreadyInCollection, db)
      | none =>
        match db.collections.find? fun c => c._id == invite.collectionId with
        | none => (.error .collectionMissing, db)
        | some collection =>
          if collection.maxLinkedServers ≤ (Server.listByCollection db collection._id).length then
            (.error .capacityReached, db)
          else
            match Server.add db newServerId now joiningGuildId collection._id userId
                none syncOnJoin true with
            | .error e => (.error e, db)
            | .ok (row, db1) =>
              match Invite.accept db1 invite now with
              | .error e => (.error e, db)
              | .ok db2 =>
                let db3 :=
                  (logAction db2 auditId1 now
                    { collectionId := collection._id
                      action := .server_add
                      performedBy := userId
                      details :=
                        { guildId := some joiningGuildId
                          serverId := some row._id
                          syncOnJoin := some syncOnJoin
                          inviteId := some invite._id } }
                    auditPersistFails).2
                let db4 :=
                  (logAction db3 auditId2 now
                    { collectionId := collection._id
                      action := .invite_accept
                      performedBy := userId
                      details :=
                        { inviteId := some invite._id
                          guildId := some joiningGuildId } }
                    auditPersistFails).2
                (.ok row, db4)

/-! ### Audit notification cascade (lib/utils, sendAuditLogNotifications) -/

/-- The observable outcome of one notification fan-out: which member
logging channels received the embed, and whether the main-collection
fallback chain was entered. -/
structure NotificationRun where
  deliveredTo : List Nat
  fallbackRan : Bool
deriving DecidableEq, Repr

/-- The per-member channel loop of sendAuditLogNotifications (lib/utils
lines 296-321): iterate over EVERY enabled membership row; for each row
with a configured loggingChannelId attempt the delivery (guild fetch,
channel fetch, texty channel type, send — collapsed into the deliver
parameter); a success sets sentToServerChannel but never stops the loop.
The fallback to the main collection log runs exactly when no member
channel delivery succeeded. -/
def notifyMemberChannels (servers : List ServerRow) (deliver : Nat → Nat → Bool) :
    NotificationRun :=
  let enabledServers := servers.filter fun s => s.enabled
  let delivered := enabledServers.foldl
    (fun acc s =>
      match s.loggingChannelId with
      | some ch => if deliver s.guildId ch then acc ++ [s.guildId] else acc
      | none => acc)
    []
  { deliveredTo := delivered, fallbackRan := delivered.isEmpty }

/-- sendAuditLogNotifications (lib/utils lines 268-322) after the
collection fetch: bail out when collection-level logging is disabled,
otherwise run the member-channel loop over the membership rows of the
collection and, when nothing was delivered, enter the fallback chain. -/
def sendAuditLogNotifications (db : DbState) (collection : CollectionRow)
    (deliver : Nat → Nat → Bool) : NotificationRun :=
  if !collection.loggingEnabledAtCollectionLevel then
    { deliveredTo := [], fallbackRan := false }
  else notifyMemberChannels (Server.listByCollection db collection._id) deliver

/-! ### Helper lemmas -/

theorem logAction_bans (db : DbState) (newId now : Nat) (input : AuditLogCreateInput)
    (persistFails : Bool) : ((logAction db newId now input persistFails).2).bans = db.bans := by
  cases persistFails <;> simp [logAction, AuditLog.create]

theorem mem_uniqueInOrder_aux (x : Nat) (l : List Nat) :
    ∀ acc : List Nat,
      (x ∈ l.foldl (fun acc y => if y ∈ acc then acc else acc ++ [y]) acc) ↔ x ∈ acc ∨ x ∈ l := by
  induction l with
  | nil => intro acc; simp
  | cons y ys ih =>
    intro acc
    by_cases h : y ∈ acc
    · rw [List.foldl_cons, if_pos h, ih acc]
      constructor
      · rintro (hx | hx)
        · exact Or.inl hx
        · exact Or.inr (List.mem_cons_of_mem _ hx)
      · rintro (hx | hx)
        · exact Or.inl hx
        · rcases List.mem_cons.mp hx with hx | hx
          · exact Or.inl (hx ▸ h)
          · exact Or.inr hx
    · rw [List.foldl_cons, if_neg h, ih (acc ++ [y])]
      simp [List.mem_append, List.mem_cons]
      tauto

theorem mem_uniqueInOrder (x : Nat) (l : List Nat) : x ∈ uniqueInOrder l ↔ x ∈ l := by
  rw [uniqueInOrder, mem_uniqueInOrder_aux]
  simp

theorem notify_foldl_closed (deliver : Nat → Nat → Bool) (l : List ServerRow) :
    ∀ acc : List Nat,
      l.foldl
        (fun acc s =>
          match s.loggingChannelId with
          | some ch => if deliver s.guildId ch then acc ++ [s.guildId] else acc
          | none => acc)
        acc
        = acc ++ ((l.filter fun s =>
            match s.loggingChannelId with
            | some ch => deliver s.guildId ch
            | none => false).map fun s => s.guildId) := by
  induction l with
  | nil => intro acc; simp
  | cons s ss ih =>
    intro acc
    rw [List.foldl_cons]
    cases hch : s.loggingChannelId with
    | none => rw [ih acc]; simp [List.filter_cons, hch]
    | some ch =>
      rw [ih]
      by_cases hd : deliver s.guildId ch = true
      · simp [List.filter_cons, hch, hd]
      · simp [List.filter_cons, hch, hd]

/-! ### C2 — audit notification cascade -/

/-- C2 (amended): in the audit notification cascade, when the collection
has logging enabled, the member-channel loop is a broadcast: the embed is
delivered to exactly the enabled members whose configured channel delivery
succeeds — a success never stops the loop — and the owner-side fallback
chain runs exactly when no member-channel delivery succeeded. -/
theorem audit_notifications_broadcast (db : DbState) (collection : CollectionRow)
    (deliver : Nat → Nat → Bool)
    (h : collection.loggingEnabledAtCollectionLevel = true) :
    (sendAuditLogNotifications db collection deliver).deliveredTo
      = ((((Server.listByCollection db collection._id).filter fun s => s.enabled).filter fun s =>
          match s.loggingChannelId with
          | some ch => deliver s.guildId ch
          | none => false).map fun s => s.guildId)
    ∧ (sendAuditLogNotifications db collection deliver).fallbackRan
        = (sendAuditLogNotifications db collection deliver).deliveredTo.isEmpty := by
  unfold sendAuditLogNotifications notifyMemberChannels
  rw [h]
  simp only [Bool.not_true, Bool.false_eq_true, if_false]
  rw [notify_foldl_closed]
  simp

/-- Witness for C2 (amended): a two-member collection where both enabled
members have a configured channel and both deliveries succeed. -/
theorem audit_notifications_broadcast_witness :
    ((sendAuditLogNotifications
        { collections :=
            [{ _id := 1, mainGuildId := 10, name := "alpha", description := none, createdAt := 0,
               createdBy := 5, loggingEnabledAtCollectionLevel := true, onServerRemove := 0,
               dmOnBan := false, analyticsEnabled := false, maxLinkedServers := 30 }]
          servers :=
            [{ _id := 21, guildId := 11, collectionId := 1, addedAt := 1, addedBy := 5,
               loggingChannelId := some 101, syncOnJoin := true, enabled := true },
             { _id := 22, guildId := 12, collectionId := 1, addedAt := 2, addedBy := 5,
               loggingChannelId := some 102, syncOnJoin := true, enabled := true }] }
        { _id := 1, mainGuildId := 10, name := "alpha", description := none, createdAt := 0,
          createdBy := 5, loggingEnabledAtCollectionLevel := true, onServerRemove := 0,
          dmOnBan := false, analyticsEnabled := false, maxLinkedServers := 30 }
        fun _ _ => true).deliveredTo
      = ((((Server.listByCollection
            { collections :=
                [{ _id := 1, mainGuildId := 10, name := "alpha", description := none, createdAt := 0,
                   createdBy := 5, loggingEnabledAtCollectionLevel := true, onServerRemove := 0,
                   dmOnBan := false, analyticsEnabled := false, maxLinkedServers := 30 }]
              servers :=
                [{ _id := 21, guildId := 11, collectionId := 1, addedAt := 1, addedBy := 5,
                   loggingChannelId := some 101, syncOnJoin := true, enabled := true },
                 { _id := 22, guildId := 12, collectionId := 1, addedAt := 2, addedBy := 5,
                   loggingChannelId := some 102, syncOnJoin := true, enabled := true }] }
            1).filter fun s => s.enabled).filter fun s =>
              match s.loggingChannelId with
              | some ch => (fun _ _ => true : Nat → Nat → Bool) s.guildId ch
              | none => false).map fun s => s.guildId)) := by
  exact (audit_notifications_broadcast _ _ _ rfl).1

/-- Concrete fixture: a collection with logging enabled whose two enabled
members both have a configured logging channel. -/
def c2coll : CollectionRow :=
  { _id := 1, mainGuildId := 10, name := "alpha", description := none, createdAt := 0,
    createdBy := 5, loggingEnabledAtCollectionLevel := true, onServerRemove := 0,
    dmOnBan := false, analyticsEnabled := false, maxLinkedServers := 30 }

/-- Concrete fixture: the database for the C2 counterexample. -/
def c2db : DbState :=
  { collections := [c2coll]
    servers :=
      [{ _id := 21, guildId := 11, collectionId := 1, addedAt := 1, addedBy := 5,
         loggingChannelId := some 101, syncOnJoin := true, enabled := true },
       { _id := 22, guildId := 12, collectionId := 1, addedAt := 2, addedBy := 5,
         loggingChannelId := some 102, syncOnJoin := true, enabled := true }] }

/-- C2 (counterexample): a group with two enabled members, each with a
configured logging channel, where both deliveries succeed: BOTH member
channels receive the notification, so delivery does not stop after the
first success and more than one per-member channel receives it. -/
theorem audit_notifications_counterexample :
    2 ≤ ((c2db.servers.filter fun s =>
        s.collectionId == c2coll._id && s.enabled && s.loggingChannelId.isSome).length) ∧
    (sendAuditLogNotifications c2db c2coll fun _ _ => true).deliveredTo.length = 2 := by
  constructor
  · decide
  · decide

/-! ### C9 — audit persistence failures are swallowed -/

/-- Projection helper: the per-server results of a share-ban outcome. -/
def confirmResults : Except Err ConfirmBanOutcome → Option (List BanAttemptResult)
  | .ok out => some out.results
  | .error _ => none

/-- Projection helper: the created ban row of a share-ban outcome. -/
def confirmBanRow : Except Err ConfirmBanOutcome → Option BanRow
  | .ok out => some out.ban
  | .error _ => none

/-- Projection helper: the bans table after a share-ban outcome. -/
def confirmBansTable : Except Err ConfirmBanOutcome → Option (List BanRow)
  | .ok out => some out.db.bans
  | .error _ => none

/-- C9: a failure while persisting an audit-log entry is swallowed: the
logAction call returns a null entry and leaves the database exactly as it
was instead of raising, and the business outcome of the share-ban flow
(the per-server results, the created ban row and the bans table) is
identical whether every audit insert fails or succeeds — the flow still
completes with an ok outcome. -/
theorem audit_persist_failure_swallowed (db : DbState) (newId now : Nat)
    (input : AuditLogCreateInput) (cfg : BanConfiguration)
    (executorId executorGuildId : Nat) (applyBan : Nat → Option String)
    (banId banTimestamp auditId1 auditId2 auditNow : Nat) :
    logAction db newId now input true = (none, db) ∧
    confirmResults (handleConfirmBan db cfg executorId executorGuildId applyBan banId
        banTimestamp auditId1 auditId2 auditNow true) ≠ none ∧
    confirmResults (handleConfirmBan db cfg executorId executorGuildId applyBan banId
        banTimestamp auditId1 auditId2 auditNow true)
      = confirmResults (handleConfirmBan db cfg executorId executorGuildId applyBan banId
        banTimestamp auditId1 auditId2 auditNow false) ∧
    confirmBanRow (handleConfirmBan db cfg executorId executorGuildId applyBan banId
        banTimestamp auditId1 auditId2 auditNow true)
      = confirmBanRow (handleConfirmBan db cfg executorId executorGuildId applyBan banId
        banTimestamp auditId1 auditId2 auditNow false) ∧
    confirmBansTable (handleConfirmBan db cfg executorId executorGuildId applyBan banId
        banTimestamp auditId1 auditId2 auditNow true)
      = confirmBansTable (handleConfirmBan db cfg executorId executorGuildId applyBan banId
        banTimestamp auditId1 auditId2 auditNow false) := by
  refine ⟨by simp [logAction, AuditLog.create], ?_, ?_, ?_, ?_⟩ <;>
    · simp only [handleConfirmBan, Ban.create, Option.getD_none, List.length_nil,
        Nat.lt_irrefl, gt_iff_lt, decide_eq_true_eq, if_false]
      norm_num [confirmResults, confirmBanRow, confirmBansTable]
      try first
      | (split <;> simp [logAction_bans])
      | simp

/-! ### C1 — run entries persisted by the share-ban flow -/

theorem results_failed_count (applyBan : Nat → Option String) (ids : List Nat) :
    ((ids.map fun guildId =>
        match applyBan guildId with
        | none => { guildId := guildId, success := true, error := none : BanAttemptResult }
        | some err =>
            { guildId := guildId, success := false, error := some err : BanAttemptResult }).filter
      fun r => !r.success).length
    = (ids.filter fun g => (applyBan g).isSome).length := by
  induction ids with
  | nil => simp
  | cons g gs ih =>
    cases h : applyBan g <;> simp [List.filter_cons, h, ih]

/-- C1 (amended): for every ban created through the share-ban flow with N
selected target servers of which K per-server platform ban calls fail, the
flow collects exactly N in-memory results with exactly K failures, but the
Ban row it persists carries EMPTY appliedServersRecent and
appliedServersHistory lists — the per-target outcomes are never written
into the ban record, they survive only in the audit-log detail payloads —
and the row has active = true and is present in the bans table. -/
theorem shareban_persists_empty_run_lists (db : DbState) (cfg : BanConfiguration)
    (executorId executorGuildId : Nat) (applyBan : Nat → Option String)
    (banId banTimestamp auditId1 auditId2 auditNow : Nat) (auditPersistFails : Bool) :
    ∃ out, handleConfirmBan db cfg executorId executorGuildId applyBan banId banTimestamp
        auditId1 auditId2 auditNow auditPersistFails = .ok out ∧
      out.results.length = cfg.selectedServerGuildIds.length ∧
      (out.results.filter fun r => !r.success).length
        = (cfg.selectedServerGuildIds.filter fun g => (applyBan g).isSome).length ∧
      out.ban.active = true ∧
      out.ban.appliedServersRecent = [] ∧
      out.ban.appliedServersHistory = [] ∧
      out.ban ∈ out.db.bans := by
  refine ⟨_, rfl, ?_, ?_, ?_, ?_, ?_, ?_⟩
  · exact List.length_map _ _
  · exact results_failed_count applyBan _
  · rfl
  · rfl
  · rfl
  · show _ ∈ (if _ then _ else _ : DbState).bans
    split <;> simp [logAction_bans]

/-- Concrete fixture: a share-ban configuration selecting exactly one
target server. -/
def c1cfg : BanConfiguration :=
  { targetUserId := 42, collectionId := 1, selectedServerGuildIds := [7], reason := "spam",
    userFacingReason := "", privatiseReason := true, moderatorsInvolved := [], evidence := [],
    dmUser := true }

/-- C1 (counterexample): a share-ban over N = 1 selected server whose
single platform call succeeds (K = 0). The claim asserts the persisted Ban
contains exactly N = 1 run entries; in fact the flow collects 1 result but
persists a ban row with 0 run entries. -/
theorem shareban_run_entries_counterexample :
    (confirmResults (handleConfirmBan {} c1cfg 9 1 (fun _ => none) 100 50 101 102 60
        false)).map List.length = some 1 ∧
    (confirmBanRow (handleConfirmBan {} c1cfg 9 1 (fun _ => none) 100 50 101 102 60
        false)).map (fun b => b.appliedServersRecent.length) = some 0 := by
  exact ⟨rfl, rfl⟩

/-! ### C6 and C4 — revocation -/

/-- C6: revoking a ban never deletes the Ban record. For every per-target
outcome function whatsoever, the executeUnban step completes, the bans
table keeps the same length and the same row ids, and the row with the id
of the revoked ban is still retrievable with active = false. -/
theorem unshareban_never_deletes (db : DbState) (ban : BanRow) (executorId : Nat)
    (removeBan : Nat → Option String) (auditId1 auditId2 auditNow : Nat)
    (auditPersistFails : Bool) (coll : CollectionRow)
    (hcoll : db.collections.find? (fun c => c._id == ban.collectionId) = some coll)
    (hrow : ∃ r ∈ db.bans, r._id = ban._id) :
    ∃ results db2,
      executeUnbanStep db ban executorId removeBan auditId1 auditId2 auditNow auditPersistFails
        = (.ok results, db2) ∧
      db2.bans.length = db.bans.length ∧
      db2.bans.map (fun r => r._id) = db.bans.map (fun r => r._id) ∧
      ∃ r ∈ db2.bans, r._id = ban._id ∧ r.active = false := by
  obtain ⟨r0, hr0, hid0⟩ := hrow
  have hany : (db.bans.any fun r => r._id == ({ ban with active := false } : BanRow)._id) = true := by
    rw [List.any_eq_true]
    exact ⟨r0, hr0, by simp [hid0]⟩
  unfold executeUnbanStep
  rw [hcoll]
  dsimp only
  unfold Ban.save
  rw [if_pos hany]
  dsimp only
  split <;>
  · refine ⟨_, _, rfl, ?_, ?_, ?_⟩
    · simp [logAction_bans]
    · simp only [logAction_bans]
      rw [List.map_map]
      refine List.map_congr_left fun r _ => ?_
      by_cases h : r._id = ban._id <;> simp [h]
    · simp only [logAction_bans]
      simp only [List.mem_map]
      refine ⟨_, ⟨r0, hr0, rfl⟩, ?_, ?_⟩
      · simp [hid0]
      · simp [hid0]

/-- Fixture for the C6 witness: one collection, one disabled member row
and one active ban. -/
def c6coll : CollectionRow :=
  { _id := 1, mainGuildId := 1, name := "grp", description := none, createdAt := 0,
    createdBy := 5, loggingEnabledAtCollectionLevel := false, onServerRemove := 0,
    dmOnBan := false, analyticsEnabled := false, maxLinkedServers := 30 }

/-- Fixture for the C6 witness: the active ban to revoke. -/
def c6ban : BanRow :=
  { _id := 70, collectionId := 1, userId := 42, moderatorId := 9, moderatorGuildId := 1,
    timestamp := 10, expiresAt := none, reason := some "spam", userFacingReason := none,
    privatiseReason := true, moderatorsInvolved := [], evidence := [], active := true,
    appliedServersRecent := [], appliedServersHistory := [], meta := {} }

/-- Fixture for the C6 witness: the database. -/
def c6db : DbState :=
  { collections := [c6coll]
    servers :=
      [{ _id := 21, guildId := 2, collectionId := 1, addedAt := 1, addedBy := 5,
         loggingChannelId := none, syncOnJoin := true, enabled := true }]
    bans := [c6ban] }

/-- Witness for C6: revoking the fixture ban while every platform call
fails still flips active to false and keeps the row. -/
theorem unshareban_never_deletes_witness :
    ∃ results db2,
      executeUnbanStep c6db c6ban 9 (fun _ => some "Missing Permissions") 201 202 60 false
        = (.ok results, db2) ∧
      db2.bans.length = c6db.bans.length ∧
      db2.bans.map (fun r => r._id) = c6db.bans.map (fun r => r._id) ∧
      ∃ r ∈ db2.bans, r._id = c6ban._id ∧ r.active = false :=
  unshareban_never_deletes c6db c6ban 9 (fun _ => some "Missing Permissions") 201 202 60 false
    c6coll (by decide) ⟨c6ban, by decide, rfl⟩

theorem unban_results_guildIds (removeBan : Nat → Option String) (l : List Nat) :
    (l.map fun g =>
      match removeBan g with
      | none => { guildId := g, success := true, error := none : UnbanServerResult }
      | some e => { guildId := g, success := false, error := some e : UnbanServerResult }).map
        (fun r => r.guildId) = l := by
  induction l with
  | nil => rfl
  | cons g gs ih => cases h : removeBan g <;> simp [h, ih]

theorem mem_unbanTargetGuildIds (db : DbState) (coll : CollectionRow) (g : Nat) :
    g ∈ unbanTargetGuildIds db coll ↔
      g = coll.mainGuildId ∨ ∃ s ∈ db.servers, s.collectionId = coll._id ∧ s.guildId = g := by
  unfold unbanTargetGuildIds Server.listByCollection
  rw [mem_uniqueInOrder]
  simp only [List.mem_cons, List.mem_map, mem_sortByKeyDesc, List.mem_filter, beq_iff_eq]
  constructor
  · rintro (h | ⟨s, ⟨hs, hc⟩, hg⟩)
    · exact Or.inl h
    · exact Or.inr ⟨s, hs, hc, hg⟩
  · rintro (h | ⟨s, hs, hc, hg⟩)
    · exact Or.inl h
    · exact Or.inr ⟨s, ⟨hs, hc⟩, hg⟩

/-- C4 (amended): one executeUnban iteration attempts the platform unban
against exactly the owning guild plus the guild of EVERY membership row of
the collection, enabled and disabled rows alike, deduplicated — a set
computed from the current servers table only, independent of the server
set originally targeted by the ban (the ban row contributes nothing to the
target computation). -/
theorem unban_retargets_current_membership_rows (db : DbState) (ban : BanRow)
    (executorId : Nat) (removeBan : Nat → Option String) (auditId1 auditId2 auditNow : Nat)
    (auditPersistFails : Bool) (coll : CollectionRow)
    (hcoll : db.collections.find? (fun c => c._id == ban.collectionId) = some coll)
    (hrow : ∃ r ∈ db.bans, r._id = ban._id) :
    ∃ results db2,
      executeUnbanStep db ban executorId removeBan auditId1 auditId2 auditNow auditPersistFails
        = (.ok results, db2) ∧
      results.map (fun r => r.guildId) = unbanTargetGuildIds db coll ∧
      ∀ g, g ∈ unbanTargetGuildIds db coll ↔
        g = coll.mainGuildId ∨ ∃ s ∈ db.servers, s.collectionId = coll._id ∧ s.guildId = g := by
  obtain ⟨r0, hr0, hid0⟩ := hrow
  have hany : (db.bans.any fun r => r._id == ({ ban with active := false } : BanRow)._id) = true := by
    rw [List.any_eq_true]
    exact ⟨r0, hr0, by simp [hid0]⟩
  unfold executeUnbanStep
  rw [hcoll]
  dsimp only
  unfold Ban.save
  rw [if_pos hany]
  dsimp only
  split <;>
  · exact ⟨_, _, rfl, unban_results_guildIds removeBan _, mem_unbanTargetGuildIds db coll⟩

/-- Fixture for the C4 counterexample: group owned by guild 1 whose only
membership row is DISABLED guild 2. -/
def c4coll : CollectionRow :=
  { _id := 1, mainGuildId := 1, name := "grp", description := none, createdAt := 0,
    createdBy := 5, loggingEnabledAtCollectionLevel := false, onServerRemove := 0,
    dmOnBan := false, analyticsEnabled := false, maxLinkedServers := 30 }

/-- Fixture for the C4 counterexample: the ban being revoked. -/
def c4ban : BanRow :=
  { _id := 70, collectionId := 1, userId := 42, moderatorId := 9, moderatorGuildId := 1,
    timestamp := 10, expiresAt := none, reason := some "spam", userFacingReason := none,
    privatiseReason := true, moderatorsInvolved := [], evidence := [], active := true,
    appliedServersRecent := [], appliedServersHistory := [], meta := {} }

/-- Fixture for the C4 counterexample: the database with the disabled
member row. -/
def c4db : DbState :=
  { collections := [c4coll]
    servers :=
      [{ _id := 21, guildId := 2, collectionId := 1, addedAt := 1, addedBy := 5,
         loggingChannelId := none, syncOnJoin := true, enabled := false }]
    bans := [c4ban] }

/-- Projection helper: the guild ids an executeUnban step attempted. -/
def okUnbanGuildIds (r : Except Err (List UnbanServerResult) × DbState) : Option (List Nat) :=
  match r.1 with
  | .ok rs => some (rs.map fun x => x.guildId)
  | .error _ => none

/-- C4 (counterexample): the group has NO enabled member, so the claimed
target set is just the owning guild 1; the code nevertheless attempts the
remove-ban call against the disabled member guild 2 as well. -/
theorem unban_targets_counterexample :
    okUnbanGuildIds (executeUnbanStep c4db c4ban 9 (fun _ => none) 201 202 60 false)
      = some [1, 2] ∧
    (c4db.servers.filter fun s => s.collectionId == 1 && s.enabled).length = 0 := by
  exact ⟨rfl, rfl⟩

/-- Witness for C4 (amended): the amended theorem applied to the
counterexample fixture. -/
theorem unban_retargets_current_membership_rows_witness :
    ∃ results db2,
      executeUnbanStep c4db c4ban 9 (fun _ => none) 201 202 60 false = (.ok results, db2) ∧
      results.map (fun r => r.guildId) = unbanTargetGuildIds c4db c4coll ∧
      ∀ g, g ∈ unbanTargetGuildIds c4db c4coll ↔
        g = c4coll.mainGuildId ∨ ∃ s ∈ c4db.servers, s.collectionId = c4coll._id ∧ s.guildId = g :=
  unban_retargets_current_membership_rows c4db c4ban 9 (fun _ => none) 201 202 60 false
    c4coll (by decide) ⟨c4ban, by decide, rfl⟩

/-! ### C3 — group deletion cascade -/

/-- C3 (amended): deleting a Group cascades, in one atomic transaction, to
its members, bans, moderators and audit entries — but NOT to its invites.
When no invite row references the group the delete succeeds and afterwards
no member, ban, moderator or audit row of the group remains (and trivially
no invite, since none existed); when some invite row references the group
the foreign-key check on the final DELETE fails the whole transaction and
the database is left exactly as it was — no partial cascade is ever
observable. -/
theorem collection_remove_cascade (db : DbState) (collectionId : Nat)
    (hex : ∃ c ∈ db.collections, c._id = collectionId) :
    ((∃ i ∈ db.invites, i.collectionId = collectionId) →
        Collection.remove db collectionId = (.error .foreignKeyViolation, db)) ∧
    ((∀ i ∈ db.invites, i.collectionId ≠ collectionId) →
        ∃ db2, Collection.remove db collectionId = (.ok (), db2) ∧
          (∀ s ∈ db2.servers, s.collectionId ≠ collectionId) ∧
          (∀ b ∈ db2.bans, b.collectionId ≠ collectionId) ∧
          (∀ m ∈ db2.moderators, m.collectionId ≠ collectionId) ∧
          (∀ a ∈ db2.auditLogs, a.collectionId ≠ collectionId) ∧
          (∀ c ∈ db2.collections, c._id ≠ collectionId) ∧
          db2.invites = db.invites) := by
  obtain ⟨c0, hc0, hcid⟩ := hex
  have hanyc : (db.collections.any fun c => c._id == collectionId) = true := by
    rw [List.any_eq_true]
    exact ⟨c0, hc0, by simp [hcid]⟩
  constructor
  · intro ⟨i0, hi0, hicid⟩
    have hanyi : (db.invites.any fun i => i.collectionId == collectionId) = true := by
      rw [List.any_eq_true]
      exact ⟨i0, hi0, by simp [hicid]⟩
    unfold Collection.remove
    rw [if_pos hanyc, if_pos hanyi]
  · intro hnone
    have hanyi : (db.invites.any fun i => i.collectionId == collectionId) = false := by
      rw [List.any_eq_false]
      intro i hi
      simp [hnone i hi]
    unfold Collection.remove
    rw [if_pos hanyc, if_neg (by simp [hanyi])]
    refine ⟨_, rfl, ?_, ?_, ?_, ?_, ?_, rfl⟩ <;>
    · intro x hx
      have := (List.mem_filter.mp hx).2
      simpa using this

/-- Fixture for the C3 counterexample: a collection with one member row
and one invite row referencing it. -/
def c3db : DbState :=
  { collections :=
      [{ _id := 1, mainGuildId := 10, name := "alpha", description := none, createdAt := 0,
         createdBy := 5, loggingEnabledAtCollectionLevel := true, onServerRemove := 0,
         dmOnBan := false, analyticsEnabled := false, maxLinkedServers := 30 }]
    servers :=
      [{ _id := 21, guildId := 11, collectionId := 1, addedAt := 1, addedBy := 5,
         loggingChannelId := none, syncOnJoin := true, enabled := true }]
    invites :=
      [{ _id := 31, collectionId := 1, targetGuildId := 12, invitedBy := 5, invitedAt := 2,
         expiresAt := 172800002, status := .pending, respondedAt := none }] }

/-- C3 (counterexample): with one invite row referencing the group, the
delete fails with a foreign-key violation and removes NOTHING — the
invite, the member row and the collection row all survive, contradicting
the claim that deletion removes every dependent record of all five kinds
including invites. -/
theorem collection_remove_counterexample :
    Collection.remove c3db 1 = (.error .foreignKeyViolation, c3db) ∧
    ((Collection.remove c3db 1).2.invites.filter fun i => i.collectionId == 1).length = 1 ∧
    ((Collection.remove c3db 1).2.servers.filter fun s => s.collectionId == 1).length = 1 := by
  exact ⟨rfl, rfl, rfl⟩

/-- Fixture for the C3 witness: same group with dependents of the four
cascaded kinds and no invites. -/
def c3okDb : DbState :=
  { collections :=
      [{ _id := 1, mainGuildId := 10, name := "alpha", description := none, createdAt := 0,
         createdBy := 5, loggingEnabledAtCollectionLevel := true, onServerRemove := 0,
         dmOnBan := false, analyticsEnabled := false, maxLinkedServers := 30 }]
    servers :=
      [{ _id := 21, guildId := 11, collectionId := 1, addedAt := 1, addedBy := 5,
         loggingChannelId := none, syncOnJoin := true, enabled := true }]
    bans :=
      [{ _id := 41, collectionId := 1, userId := 42, moderatorId := 9, moderatorGuildId := 10,
         timestamp := 3, expiresAt := none, reason := some "spam", userFacingReason := none,
         privatiseReason := true, moderatorsInvolved := [], evidence := [], active := true,
         appliedServersRecent := [], appliedServersHistory := [], meta := {} }]
    moderators := [{ _id := 51, collectionId := 1, type := .user, value := 9, grantedBy := 5, grantedAt := 1 }]
    auditLogs := [{ _id := 61, collectionId := 1, action := .ban_create, performedBy := 9, performedAt := 3, details := {} }] }

/-- Witness for C3 (amended): the amended theorem applied to the fixture
without invites; both implications are discharged at the concrete input. -/
theorem collection_remove_cascade_witness :
    ∃ db2, Collection.remove c3okDb 1 = (.ok (), db2) ∧
      (∀ s ∈ db2.servers, s.collectionId ≠ 1) ∧
      (∀ b ∈ db2.bans, b.collectionId ≠ 1) ∧
      (∀ m ∈ db2.moderators, m.collectionId ≠ 1) ∧
      (∀ a ∈ db2.auditLogs, a.collectionId ≠ 1) ∧
      (∀ c ∈ db2.collections, c._id ≠ 1) ∧
      db2.invites = c3okDb.invites :=
  (collection_remove_cascade c3okDb 1 (by decide)).2 (by decide)

/-! ### C7 — duplicate-ban rejection -/

theorem buildServerInfoList_ne_nil (db : DbState) (c : CollectionRow) :
    buildServerInfoList db c ≠ [] := by
  unfold buildServerInfoList
  intro h
  rcases List.append_eq_nil.mp h with ⟨h1, h2⟩
  rw [List.map_eq_nil_iff] at h2
  rw [h2] at h1
  simp at h1

theorem shareban_listByCollection_filter (db : DbState) (collectionId : Nat) :
    (db.bans.filter fun b => b.collectionId == collectionId && (!true || b.active))
      = db.bans.filter fun b => b.collectionId == collectionId && b.active := by
  apply List.filter_congr
  intro b _
  simp

/-- C7 (amended): creating a ban for a target who already has an active
Ban in the group is rejected with the duplicate-ban error before any
platform call or persistence, PROVIDED the existing active ban is among
the rows the duplicate check reads — the check fetches only the 1000
newest active bans of the group, so the rejection is guaranteed whenever
the group holds at most 1000 active bans. The check compares only the
target user id within the group, ignoring which servers are targeted. -/
theorem shareban_duplicate_rejected (db : DbState) (collection : CollectionRow)
    (targetUserId : Nat)
    (hcount : (db.bans.filter fun b => b.collectionId == collection._id && b.active).length ≤ 1000)
    (hdup : ∃ b ∈ db.bans, b.collectionId = collection._id ∧ b.active = true ∧
      b.userId = targetUserId) :
    sharebanChatInputRun db collection targetUserId = .error .duplicateBan := by
  obtain ⟨b0, hb0, hbc, hba, hbu⟩ := hdup
  have hmem : b0 ∈ Ban.listByCollection db collection._id true := by
    unfold Ban.listByCollection
    rw [shareban_listByCollection_filter]
    have hlen : (sortByKeyDesc (fun b => b.timestamp)
        (db.bans.filter fun b => b.collectionId == collection._id && b.active)).length ≤ 1000 := by
      rw [length_sortByKeyDesc]
      exact hcount
    rw [List.take_of_length_le hlen, mem_sortByKeyDesc, List.mem_filter]
    exact ⟨hb0, by simp [hbc, hba]⟩
  have hfind : (Ban.listByCollection db collection._id true).find?
      (fun b => b.userId == targetUserId) |>.isSome := by
    rw [List.find?_isSome]
    exact ⟨b0, hmem, by simp [hbu]⟩
  obtain ⟨y, hy⟩ := Option.isSome_iff_exists.mp hfind
  unfold sharebanChatInputRun
  rw [if_neg (by simp [List.length_eq_zero, buildServerInfoList_ne_nil db collection])]
  unfold sharebanFindExistingBan
  rw [hy]

/-- Fixture for C7: a collection owned by guild 1. -/
def c7coll : CollectionRow :=
  { _id := 1, mainGuildId := 1, name := "grp", description := none, createdAt := 0,
    createdBy := 5, loggingEnabledAtCollectionLevel := true, onServerRemove := 0,
    dmOnBan := false, analyticsEnabled := false, maxLinkedServers := 30 }

/-- Fixture for the C7 witness: one active ban for user 42. -/
def c7db : DbState :=
  { collections := [c7coll]
    bans :=
      [{ _id := 70, collectionId := 1, userId := 42, moderatorId := 9, moderatorGuildId := 1,
         timestamp := 10, expiresAt := none, reason := some "spam", userFacingReason := none,
         privatiseReason := true, moderatorsInvolved := [], evidence := [], active := true,
         appliedServersRecent := [], appliedServersHistory := [], meta := {} }] }

/-- Witness for C7 (amended): sharing a ban for the already-banned user 42
is rejected with the duplicate-ban error. -/
theorem shareban_duplicate_rejected_witness :
    sharebanChatInputRun c7db c7coll 42 = .error .duplicateBan :=
  shareban_duplicate_rejected c7db c7coll 42 (by decide)
    ⟨c7db.bans.head (by decide), by decide, by decide, by decide, by decide⟩

/-- Fixture for the C7 counterexample: ban number i of 1001 active bans of
the same collection, timestamps strictly decreasing with i, so that the
ban of user 42 (i = 1000) is the OLDEST row. -/
def c7bigBan (i : Nat) : BanRow :=
  { _id := i, collectionId := 1, userId := if i == 1000 then 42 else 2000 + i,
    moderatorId := 9, moderatorGuildId := 1, timestamp := 1000 - i, expiresAt := none,
    reason := some "spam", userFacingReason := none, privatiseReason := true,
    moderatorsInvolved := [], evidence := [], active := true,
    appliedServersRecent := [], appliedServersHistory := [], meta := {} }

/-- Fixture for the C7 counterexample: 1001 active bans. -/
def c7bigDb : DbState :=
  { collections := [c7coll], bans := (List.range 1001).map c7bigBan }

/-- Projection helper: whether a shareban run was rejected as a
duplicate. -/
def isDuplicateBanErr : Except Err BanConfiguration → Bool
  | .error .duplicateBan => true
  | _ => false

/-- C7 (counterexample): with 1001 active bans in the group and the
target user's active ban being the oldest, the LIMIT-1000 duplicate query
misses it: an active ban for user 42 exists, yet the lookup finds nothing
and the share-ban flow proceeds instead of rejecting. -/
theorem shareban_duplicate_counterexample :
    (c7bigDb.bans.any fun b => b.collectionId == 1 && b.active && b.userId == 42) = true ∧
    sharebanFindExistingBan c7bigDb 1 42 = none ∧
    isDuplicateBanErr (sharebanChatInputRun c7bigDb c7coll 42) = false := by
  refine ⟨by decide, by decide, by decide⟩

/-! ### C8 — duplicate pending invite -/

/-- C8: issuing a second invite for a (group, target server) pair while a
pending, unexpired invite for that pair exists fails with the
duplicate-pending error, and the database — in particular the original
pending invite with its status, expiry and responded-at — is returned
exactly unchanged: no new Invite row is created. -/
theorem duplicate_pending_invite_rejected (db : DbState) (collection : CollectionRow)
    (targetGuildId invokingGuildId userId : Nat) (targetGuildFetched : Bool)
    (now newInviteId auditId : Nat) (auditPersistFails : Bool)
    (hne : targetGuildId ≠ invokingGuildId)
    (hdup : ∃ i ∈ db.invites, i.collectionId = collection._id ∧
      i.targetGuildId = targetGuildId ∧ i.status = InviteStatus.pending ∧ now < i.expiresAt) :
    collectionInviteRun db collection targetGuildId invokingGuildId userId true
      targetGuildFetched now newInviteId auditId auditPersistFails
      = (.error .duplicatePendingInvite, db) := by
  have hpend : Invite.hasPendingInvite db collection._id targetGuildId now = true := by
    unfold Invite.hasPendingInvite
    obtain ⟨i0, hi0, h1, h2, h3, h4⟩ := hdup
    rw [decide_eq_true_eq, List.length_pos]
    exact List.ne_nil_of_mem (List.mem_filter.mpr ⟨hi0, by simp [h1, h2, h3, h4]⟩)
  unfold collectionInviteRun
  rw [if_neg (by simp), if_neg (by simp [hne]), if_pos hpend]

/-- Fixture for the C8 witness: a collection with a pending unexpired
invite for guild 3. -/
def c8db : DbState :=
  { collections := [c7coll]
    invites :=
      [{ _id := 31, collectionId := 1, targetGuildId := 3, invitedBy := 5, invitedAt := 2,
         expiresAt := 172800002, status := .pending, respondedAt := none }] }

/-- Witness for C8: re-inviting guild 3 at a time before the pending
invite expires is rejected with the database unchanged. -/
theorem duplicate_pending_invite_rejected_witness :
    collectionInviteRun c8db c7coll 3 1 5 true true 1000 32 77 false
      = (.error .duplicatePendingInvite, c8db) :=
  duplicate_pending_invite_rejected c8db c7coll 3 1 5 true 1000 32 77 false (by decide)
    ⟨c8db.invites.head (by decide), by decide, by decide, by decide, by decide, by decide⟩

/-! ### C10 — capacity check counts disabled member rows -/

/-- C10: the capacity check of invite acceptance counts every membership
row of the group, soft-disabled rows included: whenever the total row
count has reached maxLinkedServers — even if the enabled count is below
the limit — the accept attempt fails with the capacity error and nothing
is persisted. -/
theorem accept_capacity_counts_all_rows (db : DbState)
    (inviteId joiningGuildId userId : Nat) (syncOnJoin : Bool)
    (now newServerId auditId1 auditId2 : Nat) (auditPersistFails : Bool)
    (invite : InviteRow) (coll : CollectionRow)
    (hinv : db.invites.find? (fun i => i._id == inviteId) = some invite)
    (hpending : invite.status = InviteStatus.pending)
    (hnotexp : Invite.isExpired invite now = false)
    (hfree : Server.getByGuildId db joiningGuildId = none)
    (hcoll : db.collections.find? (fun c => c._id == invite.collectionId) = some coll)
    (hcap : coll.maxLinkedServers ≤ (db.servers.filter fun s => s.collectionId == coll._id).length) :
    acceptInvite db inviteId joiningGuildId userId syncOnJoin now newServerId auditId1 auditId2
      auditPersistFails = (.error .capacityReached, db) := by
  unfold acceptInvite
  rw [hinv]
  dsimp only
  rw [if_neg (by simp [hpending, hnotexp]), hfree]
  dsimp only
  rw [hcoll]
  dsimp only
  have hlen : (Server.listByCollection db coll._id).length
      = (db.servers.filter fun s => s.collectionId == coll._id).length := by
    unfold Server.listByCollection
    exact length_sortByKeyDesc _ _
  rw [if_pos (by rw [hlen]; exact hcap)]

/-- Fixture for the C10 witness: capacity 1, one DISABLED member row, a
pending invite for guild 3. -/
def c10coll : CollectionRow :=
  { _id := 1, mainGuildId := 10, name := "alpha", description := none, createdAt := 0,
    createdBy := 5, loggingEnabledAtCollectionLevel := true, onServerRemove := 0,
    dmOnBan := false, analyticsEnabled := false, maxLinkedServers := 1 }

/-- Fixture for the C10 witness: the database. -/
def c10db : DbState :=
  { collections := [c10coll]
    servers :=
      [{ _id := 21, guildId := 11, collectionId := 1, addedAt := 1, addedBy := 5,
         loggingChannelId := none, syncOnJoin := true, enabled := false }]
    invites :=
      [{ _id := 5, collectionId := 1, targetGuildId := 3, invitedBy := 5, invitedAt := 2,
         expiresAt := 100, status := .pending, respondedAt := none }] }

/-- Witness for C10: with zero ENABLED members but one disabled row and
capacity 1, acceptance fails with the capacity error. -/
theorem accept_capacity_counts_all_rows_witness :
    ((c10db.servers.filter fun s => s.collectionId == 1 && s.enabled).length = 0) ∧
    c10coll.maxLinkedServers = 1 ∧
    acceptInvite c10db 5 3 7 true 50 77 88 99 false = (.error .capacityReached, c10db) :=
  ⟨by decide, by decide,
    accept_capacity_counts_all_rows c10db 5 3 7 true 50 77 88 99 false
      (c10db.invites.head (by decide)) c10coll (by decide) (by decide) (by decide) (by decide)
      (by decide) (by decide)⟩
